import Mathlib

/-!
Verification of the eye-tracking aviation repository: a shallow embedding of
the debounce state machine, the EMA smoother, the gaze regression mapper, the
area-of-interest hit test and the debrief aggregator, with theorems settling
the specification claims.  Real time values are embedded as rationals.
-/

namespace EyeTracking

/-- Gaze classification states (src/domain/models.py, GazeState). -/
inductive GazeState where
  | IN_COCKPIT
  | OUT_OF_COCKPIT
  | UNKNOWN
deriving DecidableEq, Repr

/-- A committed state transition with timing (src/domain/models.py, StateEvent). -/
structure StateEvent where
  from_state : GazeState
  to_state : GazeState
  start_time : ℚ
  end_time : ℚ
deriving DecidableEq, Repr

/-- StateEvent.duration_ms property. -/
def StateEvent.duration_ms (e : StateEvent) : ℚ :=
  (e.end_time - e.start_time) * 1000

/-- Debounce state machine state (src/domain/state_machine.py, StateMachine). -/
structure StateMachine where
  stable_ms : ℚ
  committed : GazeState
  segment_start : ℚ
  pending : Option GazeState
  pending_since : Option ℚ
  events : List StateEvent
deriving DecidableEq, Repr

/-- StateMachine constructor defaults. -/
def StateMachine.init (stable_ms : ℚ) : StateMachine :=
  { stable_ms := stable_ms, committed := GazeState.UNKNOWN, segment_start := 0,
    pending := none, pending_since := none, events := [] }

/-- StateMachine.reset. -/
def StateMachine.reset (sm : StateMachine) (mono_time : ℚ) : StateMachine :=
  { sm with
    committed := GazeState.UNKNOWN, segment_start := mono_time,
    pending := none, pending_since := none, events := [] }

/-- The private commit step: records the transition event, moves the committed
state, opens a new segment and clears the pending tracking.  Returns the
updated machine and the emitted event, which the source also hands to the
registered on_transition callback. -/
def StateMachine.commit (sm : StateMachine) (new_state : GazeState) (mono_time : ℚ) :
    StateMachine × StateEvent :=
  let event : StateEvent :=
    { from_state := sm.committed, to_state := new_state,
      start_time := sm.segment_start, end_time := mono_time }
  ({ sm with
      events := sm.events ++ [event], committed := new_state,
      segment_start := mono_time, pending := none, pending_since := none },
    event)

/-- StateMachine.update: feed a new raw classification.  Returns the committed
state, the updated machine, and the sequence of events that the registered
on_transition callback receives during this call (empty when no commit
happens).  On the accumulating branch the source asserts that pending_since is
set; the machine maintains that invariant, and the embedding reads it with a
default of 0. -/
def StateMachine.update (sm : StateMachine) (candidate : GazeState) (mono_time : ℚ) :
    GazeState × StateMachine × List StateEvent :=
  if candidate = sm.committed then
    (sm.committed, { sm with pending := none, pending_since := none }, [])
  else if sm.pending ≠ some candidate then
    (sm.committed,
      { sm with pending := some candidate, pending_since := some mono_time }, [])
  else
    if sm.stable_ms ≤ (mono_time - sm.pending_since.getD 0) * 1000 then
      ((sm.commit candidate mono_time).1.committed,
        (sm.commit candidate mono_time).1, [(sm.commit candidate mono_time).2])
    else
      (sm.committed, sm, [])

/-- StateMachine.force_end_segment: close the currently open segment.  Returns
the optional synthesized event, the updated machine, and the (always empty)
sequence of on_transition callback invocations. -/
def StateMachine.force_end_segment (sm : StateMachine) (mono_time : ℚ) :
    Option StateEvent × StateMachine × List StateEvent :=
  if mono_time ≤ sm.segment_start then
    (none, sm, [])
  else
    (some { from_state := sm.committed, to_state := sm.committed,
            start_time := sm.segment_start, end_time := mono_time },
      { sm with
        events := sm.events ++
          [{ from_state := sm.committed, to_state := sm.committed,
             start_time := sm.segment_start, end_time := mono_time }] },
      [])

/-- Run a sequence of update calls, keeping only the machine state. -/
def StateMachine.runUpdates (sm : StateMachine) : List (GazeState × ℚ) → StateMachine
  | [] => sm
  | (c, t) :: rest => StateMachine.runUpdates (sm.update c t).2.1 rest

/-- Holds when no call of the input sequence finds its own candidate already
pending with stable_ms or more elapsed since the stability clock started:
under this condition no call can take the commit branch. -/
def StateMachine.neverStable (sm : StateMachine) : List (GazeState × ℚ) → Bool
  | [] => true
  | (c, t) :: rest =>
    (decide (sm.pending ≠ some c) ||
      decide ((t - sm.pending_since.getD 0) * 1000 < sm.stable_ms))
    && StateMachine.neverStable (sm.update c t).2.1 rest

/-- EMA smoother state (src/vision/gaze_mapper.py, EMAFilter). -/
structure EMAFilter where
  alpha : ℚ
  x : Option ℚ
  y : Option ℚ
deriving DecidableEq, Repr

/-- EMAFilter constructor. -/
def EMAFilter.init (alpha : ℚ) : EMAFilter :=
  { alpha := alpha, x := none, y := none }

/-- EMAFilter.update: first call returns the input unchanged; later calls blend
per axis with coefficient alpha.  The source branches on whether the stored x
is set; the stored y is always set together with it, and the embedding reads
it with a default of 0. -/
def EMAFilter.update (f : EMAFilter) (x y : ℚ) : (ℚ × ℚ) × EMAFilter :=
  match f.x with
  | none => ((x, y), { f with x := some x, y := some y })
  | some px =>
    ((f.alpha * x + (1 - f.alpha) * px, f.alpha * y + (1 - f.alpha) * f.y.getD 0),
      { f with
        x := some (f.alpha * x + (1 - f.alpha) * px),
        y := some (f.alpha * y + (1 - f.alpha) * f.y.getD 0) })

/-- EMAFilter.reset. -/
def EMAFilter.reset (f : EMAFilter) : EMAFilter :=
  { f with x := none, y := none }

/-- A fitted regression pipeline (StandardScaler, PolynomialFeatures, Ridge in
src/vision/gaze_mapper.py).  The numeric work is done by an external library;
the pipeline is embedded as the prediction function it realises. -/
structure Pipeline where
  predictFn : List ℚ → ℚ

/-- The external fitting procedure: from degree, ridge alpha, the training
feature rows and one target column it produces a fitted pipeline (make_pipe
followed by Pipeline.fit in GazeMapper.fit). -/
abbrev FitAlgo : Type := Nat → ℚ → List (List ℚ) → List ℚ → Pipeline

/-- Gaze regression mapper state (src/vision/gaze_mapper.py, GazeMapper). -/
structure GazeMapper where
  degree : Nat
  alpha : ℚ
  pipe_x : Option Pipeline
  pipe_y : Option Pipeline
  is_fitted : Bool

/-- GazeMapper constructor defaults. -/
def GazeMapper.init (degree : Nat) (alpha : ℚ) : GazeMapper :=
  { degree := degree, alpha := alpha, pipe_x := none, pipe_y := none,
    is_fitted := false }

/-- GazeMapper.fit: builds two fresh pipelines, fits each on the features
against one target column, marks the mapper fitted, and computes the training
prediction error.  The source returns the RMS, the square root of the mean
squared Euclidean residual; square roots leave the rationals, so the embedding
returns the mean squared residual, a value no claim depends on.  The source
performs no check whatsoever on the number of samples. -/
def GazeMapper.fit (m : GazeMapper) (algo : FitAlgo)
    (features : List (List ℚ)) (targets : List (ℚ × ℚ)) : GazeMapper × ℚ :=
  let px := algo m.degree m.alpha features (targets.map Prod.fst)
  let py := algo m.degree m.alpha features (targets.map Prod.snd)
  let sq := (features.zip targets).map fun ft =>
    (px.predictFn ft.1 - ft.2.1) ^ 2 + (py.predictFn ft.1 - ft.2.2) ^ 2
  ({ m with pipe_x := some px, pipe_y := some py, is_fitted := true },
    sq.sum / (sq.length : ℚ))

/-- Failure modes of GazeMapper.predict: the RuntimeError raised when the
mapper is not fitted, and the dereference of an absent pipeline, which cannot
happen once fit has run. -/
inductive PredictError where
  | notFitted
  | missingPipe
deriving DecidableEq, Repr

/-- Componentwise clamp to the unit interval, np.clip(v, 0.0, 1.0). -/
def clip01 (v : ℚ) : ℚ :=
  min (max v 0) 1

/-- GazeMapper.predict: raises when not fitted, otherwise returns both
pipeline predictions clamped to the unit square. -/
def GazeMapper.predict (m : GazeMapper) (features : List ℚ) :
    Except PredictError (ℚ × ℚ) :=
  if m.is_fitted = false then
    Except.error PredictError.notFitted
  else
    match m.pipe_x, m.pipe_y with
    | some px, some py =>
      Except.ok (clip01 (px.predictFn features), clip01 (py.predictFn features))
    | _, _ => Except.error PredictError.missingPipe

/-- Values of the serialisation dictionary built by GazeMapper.to_dict: the
kind tag, numeric attributes, and the base64 pickle blobs of the pipelines,
embedded as the pipelines themselves. -/
inductive DictVal where
  | str (v : String)
  | nat (v : Nat)
  | rat (v : ℚ)
  | blob (p : Option Pipeline)

/-- GazeMapper.to_dict: an empty dictionary when not fitted, otherwise the
self-describing record of the fitted model. -/
def GazeMapper.to_dict (m : GazeMapper) : List (String × DictVal) :=
  if m.is_fitted = false then []
  else
    [("type", DictVal.str ("polynomial_ridge")),
     ("degree", DictVal.nat m.degree),
     ("alpha", DictVal.rat m.alpha),
     ("pipe_x", DictVal.blob m.pipe_x),
     ("pipe_y", DictVal.blob m.pipe_y)]

/-- Outcome of the calibration fitting step: the calibration_failed signal
carrying the number of collected points, or the calibration_done signal with
the fitted mapper and its training error. -/
inductive CalibrationOutcome where
  | calibration_failed (n_points : Nat)
  | calibration_done (mapper : GazeMapper) (rms : ℚ)

/-- The fitting step of the calibration widget
(src/calibration/gaze_calibration.py, GazeCalibrationWidget, lines 177-199):
with fewer than 5 collected calibration points it emits calibration_failed
and returns without ever constructing a mapper; otherwise it builds a fresh
GazeMapper, fits it on the collected data and emits calibration_done. -/
def fitCalibrationModel (degree : Nat) (ridge_alpha : ℚ) (algo : FitAlgo)
    (features_list : List (List ℚ)) (targets_list : List (ℚ × ℚ)) :
    CalibrationOutcome :=
  if features_list.length < 5 then
    CalibrationOutcome.calibration_failed features_list.length
  else
    CalibrationOutcome.calibration_done
      ((GazeMapper.init degree ridge_alpha).fit algo features_list targets_list).1
      ((GazeMapper.init degree ridge_alpha).fit algo features_list targets_list).2

/-- A concrete stand-in for the external fitting library, used to evaluate the
embedding on explicit inputs. -/
def constAlgo : FitAlgo :=
  fun _ _ _ _ => { predictFn := fun _ => 0 }

/-- A planar point with rational coordinates. -/
structure Pt where
  x : ℚ
  y : ℚ
deriving DecidableEq, Repr

/-- One loop iteration of cv2.pointPolygonTest (floating-point contour,
measureDist false) on the directed edge from v0 to v: none means the function
returns 0 because the query point lies on the edge, some b tells whether the
crossing counter is incremented. -/
def edgeCross (pt v0 v : Pt) : Option Bool :=
  if (v0.y ≤ pt.y ∧ v.y ≤ pt.y) ∨ (pt.y < v0.y ∧ pt.y < v.y) ∨
      (v0.x < pt.x ∧ v.x < pt.x) then
    if pt.y = v.y ∧ (pt.x = v.x ∨ (pt.y = v0.y ∧
        ((v0.x ≤ pt.x ∧ pt.x ≤ v.x) ∨ (v.x ≤ pt.x ∧ pt.x ≤ v0.x)))) then
      none
    else
      some false
  else
    if (pt.y - v0.y) * (v.x - v0.x) - (pt.x - v0.x) * (v.y - v0.y) = 0 then
      none
    else
      some (decide (0 < (if v.y < v0.y then
        -((pt.y - v0.y) * (v.x - v0.x) - (pt.x - v0.x) * (v.y - v0.y))
      else
        (pt.y - v0.y) * (v.x - v0.x) - (pt.x - v0.x) * (v.y - v0.y))))

/-- The directed edges from prev through the given vertex list. -/
def pathEdges (prev : Pt) : List Pt → List (Pt × Pt)
  | [] => []
  | q :: qs => (prev, q) :: pathEdges q qs

/-- The closed cycle of edges of a polygon, in the iteration order of
cv2.pointPolygonTest: the edge closing the polygon first, then the
consecutive edges. -/
def cycEdges (ps : List Pt) : List (Pt × Pt) :=
  match ps.getLast? with
  | none => []
  | some l => pathEdges l ps

/-- Fold of edgeCross over the edges: none as soon as the point is found on an
edge, otherwise the crossing count. -/
def runEdges (pt : Pt) : List (Pt × Pt) → Option Nat
  | [] => some 0
  | e :: rest =>
    match edgeCross pt e.1 e.2 with
    | none => none
    | some b => (runEdges pt rest).map fun c => if b then c + 1 else c

/-- cv2.pointPolygonTest with measureDist false: positive inside, negative
outside, zero when the point sits on an edge. -/
def pointPolygonTest (ps : List Pt) (pt : Pt) : Int :=
  match runEdges pt (cycEdges ps) with
  | none => 0
  | some counter => if counter % 2 = 0 then -1 else 1

/-- Ray-casting hit test on a normalised polygon (src/app/controller.py,
point_in_polygon): false for degenerate polygons, otherwise the sign test
result >= 0 of cv2.pointPolygonTest. -/
def point_in_polygon (px py : ℚ) (polygon : List (ℚ × ℚ)) : Bool :=
  if polygon.length < 3 then false
  else
    decide (0 ≤ pointPolygonTest (polygon.map fun p => Pt.mk p.1 p.2) (Pt.mk px py))

/-- Membership of a point in the closed segment from a to b: collinear and
inside the coordinate ranges. -/
def OnSeg (pt a b : Pt) : Prop :=
  (pt.y - a.y) * (b.x - a.x) = (pt.x - a.x) * (b.y - a.y) ∧
  min a.x b.x ≤ pt.x ∧ pt.x ≤ max a.x b.x ∧
  min a.y b.y ≤ pt.y ∧ pt.y ≤ max a.y b.y

instance (pt a b : Pt) : Decidable (OnSeg pt a b) := by
  unfold OnSeg
  infer_instance

/-- The point lies on the boundary of the polygon: on some closed edge of the
vertex cycle. -/
def OnBoundary (pt : Pt) (ps : List Pt) : Prop :=
  ∃ e ∈ cycEdges ps, OnSeg pt e.1 e.2

instance (pt : Pt) (ps : List Pt) : Decidable (OnBoundary pt ps) := by
  unfold OnBoundary
  exact List.decidableBEx _ _

/-- Integer rounding half to even, the rounding rule of the Python round
builtin. -/
def roundHalfEven (q : ℚ) : ℤ :=
  if q - Int.floor q < 1 / 2 then Int.floor q
  else if 1 / 2 < q - Int.floor q then Int.floor q + 1
  else if Int.floor q % 2 = 0 then Int.floor q else Int.floor q + 1

/-- Python round(x, n): rounding half to even at n decimal digits.  The source
applies it to binary floats, where exact decimal halfway cases cannot occur;
no claim depends on halfway behaviour. -/
def pyRound (n : Nat) (q : ℚ) : ℚ :=
  (roundHalfEven (q * 10 ^ n) : ℚ) / 10 ^ n

/-- statistics.mean: the arithmetic mean (the source never calls it on an
empty list). -/
def pyMean (xs : List ℚ) : ℚ :=
  xs.sum / (xs.length : ℚ)

/-- statistics.median: middle element of the sorted list, or the mean of the
two middle elements (the source never calls it on an empty list). -/
def pyMedian (xs : List ℚ) : ℚ :=
  if (xs.mergeSort fun a b => decide (a ≤ b)).length % 2 = 1 then
    (xs.mergeSort fun a b => decide (a ≤ b)).getD
      ((xs.mergeSort fun a b => decide (a ≤ b)).length / 2) 0
  else
    ((xs.mergeSort fun a b => decide (a ≤ b)).getD
        ((xs.mergeSort fun a b => decide (a ≤ b)).length / 2 - 1) 0 +
      (xs.mergeSort fun a b => decide (a ≤ b)).getD
        ((xs.mergeSort fun a b => decide (a ≤ b)).length / 2) 0) / 2

/-- Python max over a list (the source never calls it on an empty list). -/
def pyMax : List ℚ → ℚ
  | [] => 0
  | h :: t => t.foldl max h

/-- One gaze sample (src/domain/models.py, GazeSample). -/
structure GazeSample where
  timestamp_mono : ℚ
  timestamp_wall : ℚ
  gaze_x_norm : ℚ
  gaze_y_norm : ℚ
  confidence : ℚ
  state : GazeState
deriving DecidableEq, Repr

/-- One entry of the downsampled debrief timeline. -/
structure TimelineEntry where
  t_s : ℚ
  gx : ℚ
  gy : ℚ
  state : GazeState
deriving DecidableEq, Repr

/-- The flat debrief dictionary returned by compute_debrief
(src/domain/metrics.py), with one field per key. -/
structure Debrief where
  total_duration_s : ℚ
  in_cockpit_s : ℚ
  out_cockpit_s : ℚ
  unknown_s : ℚ
  in_cockpit_pct : ℚ
  out_cockpit_pct : ℚ
  unknown_pct : ℚ
  n_out_glances : Nat
  out_durations_ms : List ℚ
  avg_out_ms : ℚ
  median_out_ms : ℚ
  max_out_ms : ℚ
  total_samples : Nat
  avg_confidence : ℚ
  timeline : List TimelineEntry
deriving DecidableEq, Repr

/-- The state_durations_s accumulation of compute_debrief: seconds attributed
to a state, summed as duration_ms / 1000 over the events leaving it. -/
def stateDuration (events : List StateEvent) (s : GazeState) : ℚ :=
  events.foldl
    (fun acc ev => if ev.from_state = s then acc + ev.duration_ms / 1000 else acc) 0

/-- Every n-th element of a list starting from the first, the slice xs[::n]. -/
def everyNth (n : Nat) (xs : List α) : List α :=
  (xs.enum.filter fun p => p.1 % n = 0).map Prod.snd

/-- compute_debrief (src/domain/metrics.py): reduces the sample and event
history of a finished session into the flat debrief record. -/
def compute_debrief (samples : List GazeSample) (events : List StateEvent)
    (session_duration_s : ℚ) : Debrief :=
  let in_s := stateDuration events GazeState.IN_COCKPIT
  let out_s := stateDuration events GazeState.OUT_OF_COCKPIT
  let unk_s := stateDuration events GazeState.UNKNOWN
  let total := if 0 < session_duration_s then session_duration_s else 1
  let out_segments_ms :=
    (events.filter fun ev => ev.from_state = GazeState.OUT_OF_COCKPIT).map
      StateEvent.duration_ms
  let conf_values :=
    (samples.filter fun s => 0 < s.confidence).map GazeSample.confidence
  { total_duration_s := pyRound 3 session_duration_s
    in_cockpit_s := pyRound 3 in_s
    out_cockpit_s := pyRound 3 out_s
    unknown_s := pyRound 3 unk_s
    in_cockpit_pct := pyRound 1 (in_s / total * 100)
    out_cockpit_pct := pyRound 1 (out_s / total * 100)
    unknown_pct := pyRound 1 (unk_s / total * 100)
    n_out_glances :=
      (events.filter fun ev => ev.to_state = GazeState.OUT_OF_COCKPIT).length
    out_durations_ms := out_segments_ms.map (pyRound 1)
    avg_out_ms :=
      if out_segments_ms = [] then 0 else pyRound 1 (pyMean out_segments_ms)
    median_out_ms :=
      if out_segments_ms = [] then 0 else pyRound 1 (pyMedian out_segments_ms)
    max_out_ms :=
      if out_segments_ms = [] then 0 else pyRound 1 (pyMax out_segments_ms)
    total_samples := samples.length
    avg_confidence :=
      pyRound 3 (if conf_values = [] then 0 else pyMean conf_values)
    timeline :=
      match samples with
      | [] => []
      | s0 :: _ =>
        (everyNth 3 samples).map fun s =>
          { t_s := pyRound 3 (s.timestamp_mono - s0.timestamp_mono)
            gx := pyRound 4 s.gaze_x_norm
            gy := pyRound 4 s.gaze_y_norm
            state := s.state } }

/-- The per-state total time of the specification: the sum of the event
durations, end minus start in seconds, grouped by from_state. -/
def specStateTime (events : List StateEvent) (s : GazeState) : ℚ :=
  ((events.filter fun ev => ev.from_state = s).map
    fun ev => ev.end_time - ev.start_time).sum

/-- A concrete machine with a pending candidate, for evaluating theorems. -/
def smW : StateMachine :=
  { stable_ms := 200, committed := GazeState.UNKNOWN, segment_start := 0,
    pending := some GazeState.IN_COCKPIT, pending_since := some (1 / 20),
    events := [] }

/-- A concrete EMA filter holding prior state, for evaluating theorems. -/
def emaW : EMAFilter :=
  { alpha := 3 / 10, x := some (1 / 2), y := some (1 / 2) }

/-- A concrete fast alternation of candidates, for evaluating theorems (the
flicker scenario of the repository test suite). -/
def flickerInputs : List (GazeState × ℚ) :=
  [(GazeState.IN_COCKPIT, 1 / 20), (GazeState.OUT_OF_COCKPIT, 1 / 10),
   (GazeState.IN_COCKPIT, 3 / 20)]

/-- The machine reached after the first flicker input. -/
def flickM1 : StateMachine :=
  { stable_ms := 200, committed := GazeState.UNKNOWN, segment_start := 0,
    pending := some GazeState.IN_COCKPIT, pending_since := some (1 / 20),
    events := [] }

/-- The machine reached after the second flicker input. -/
def flickM2 : StateMachine :=
  { flickM1 with
    pending := some GazeState.OUT_OF_COCKPIT, pending_since := some (1 / 10) }

/-- The machine reached after the third flicker input. -/
def flickM3 : StateMachine :=
  { flickM1 with
    pending := some GazeState.IN_COCKPIT, pending_since := some (3 / 20) }

/-- A concrete event list with one out-of-cockpit glance, for evaluating
theorems. -/
def outEvs : List StateEvent :=
  [{ from_state := GazeState.IN_COCKPIT, to_state := GazeState.OUT_OF_COCKPIT,
     start_time := 0, end_time := 1 / 2 },
   { from_state := GazeState.OUT_OF_COCKPIT, to_state := GazeState.IN_COCKPIT,
     start_time := 1 / 2, end_time := 5 / 2 }]

/-- The unit-square area of interest of the repository tests, for evaluating
theorems. -/
def sqPoly : List (ℚ × ℚ) :=
  [(1 / 10, 1 / 10), (9 / 10, 1 / 10), (9 / 10, 9 / 10), (1 / 10, 9 / 10)]

theorem clip01_nonneg (v : ℚ) : 0 ≤ clip01 v :=
  le_min (le_max_right v 0) zero_le_one

theorem clip01_le_one (v : ℚ) : clip01 v ≤ 1 :=
  min_le_right (max v 0) 1

/-- C1 (counterexample): fitting the regression model directly on a batch of
two samples raises nothing, succeeds, and marks the model fitted: the fit
operation of the model itself performs no minimum-sample check. -/
theorem gazeMapper_fit_accepts_two_samples :
    (((GazeMapper.init 2 1).fit constAlgo [[0], [1]] [(0, 0), (1, 1)]).1).is_fitted
      = true := rfl

/-- C1 (amended): the minimum-sample guard lives in the fitting step of the
calibration widget: with fewer than 5 collected calibration points it emits
calibration_failed carrying the point count and exposes no mapper at all, so
no partially fitted model ever reaches the caller. -/
theorem fitCalibrationModel_insufficient_points
    (degree : Nat) (ridge_alpha : ℚ) (algo : FitAlgo)
    (features_list : List (List ℚ)) (targets_list : List (ℚ × ℚ))
    (h : features_list.length < 5) :
    fitCalibrationModel degree ridge_alpha algo features_list targets_list =
      CalibrationOutcome.calibration_failed features_list.length ∧
    ∀ mapper rms,
      fitCalibrationModel degree ridge_alpha algo features_list targets_list ≠
        CalibrationOutcome.calibration_done mapper rms := by
  have he : fitCalibrationModel degree ridge_alpha algo features_list targets_list =
      CalibrationOutcome.calibration_failed features_list.length := by
    unfold fitCalibrationModel
    rw [if_pos h]
  refine ⟨he, fun mapper rms hc => ?_⟩
  rw [he] at hc
  exact CalibrationOutcome.noConfusion hc

theorem fitCalibrationModel_insufficient_points_witness :
    ([[(0 : ℚ)], [1]].length < 5) ∧
    fitCalibrationModel 2 1 constAlgo [[0], [1]] [(0, 0), (1, 1)] =
      CalibrationOutcome.calibration_failed 2 :=
  ⟨by decide,
    (fitCalibrationModel_insufficient_points 2 1 constAlgo [[0], [1]]
      [(0, 0), (1, 1)] (by decide)).1⟩

/-- C2: when the fed candidate equals the pending candidate and differs from
the committed state, the call commits exactly when the stability clock has
reached stable_ms: it then appends the transition event from the old
committed state to the candidate over the current segment, moves the
committed state, opens a new segment at the call time, clears the pending
tracking and hands the event to the transition callback; with strictly less
elapsed time nothing changes and the old committed state is returned. -/
theorem update_pending_candidate_spec
    (sm : StateMachine) (c : GazeState) (t ps : ℚ)
    (hpend : sm.pending = some c) (hne : c ≠ sm.committed)
    (hps : sm.pending_since = some ps) :
    (sm.stable_ms ≤ (t - ps) * 1000 →
      sm.update c t =
        (c,
          { sm with
            events := sm.events ++
              [{ from_state := sm.committed, to_state := c,
                 start_time := sm.segment_start, end_time := t }],
            committed := c, segment_start := t,
            pending := none, pending_since := none },
          [{ from_state := sm.committed, to_state := c,
             start_time := sm.segment_start, end_time := t }])) ∧
    ((t - ps) * 1000 < sm.stable_ms →
      sm.update c t = (sm.committed, sm, [])) := by
  constructor
  · intro hstab
    unfold StateMachine.update StateMachine.commit
    rw [if_neg hne, if_neg (by simp [hpend]), hps]
    simp only [Option.getD_some]
    rw [if_pos hstab]
  · intro hlt
    unfold StateMachine.update
    rw [if_neg hne, if_neg (by simp [hpend]), hps]
    simp only [Option.getD_some]
    rw [if_neg (not_le.mpr hlt)]

theorem update_pending_candidate_spec_witness :
    smW.pending = some GazeState.IN_COCKPIT ∧
    (smW.update GazeState.IN_COCKPIT (1 / 4)).1 = GazeState.IN_COCKPIT ∧
    (smW.update GazeState.IN_COCKPIT (1 / 10)).1 = GazeState.UNKNOWN := by
  have h1 := update_pending_candidate_spec smW GazeState.IN_COCKPIT (1 / 4)
    (1 / 20) rfl (by decide) rfl
  have h2 := update_pending_candidate_spec smW GazeState.IN_COCKPIT (1 / 10)
    (1 / 20) rfl (by decide) rfl
  refine ⟨rfl, ?_, ?_⟩
  · rw [h1.1 (by norm_num [smW])]
  · rw [h2.2 (by norm_num [smW])]
    rfl

/-- C4: force_end_segment is the identity returning nothing when the call
time does not exceed the segment start; otherwise it returns an event whose
two states are the committed state over the open segment, records it, leaves
the committed state untouched and never invokes the transition callback. -/
theorem force_end_segment_spec (sm : StateMachine) (t : ℚ) :
    (t ≤ sm.segment_start → sm.force_end_segment t = (none, sm, [])) ∧
    (sm.segment_start < t →
      sm.force_end_segment t =
        (some { from_state := sm.committed, to_state := sm.committed,
                start_time := sm.segment_start, end_time := t },
          { sm with
            events := sm.events ++
              [{ from_state := sm.committed, to_state := sm.committed,
                 start_time := sm.segment_start, end_time := t }] },
          [])) := by
  constructor
  · intro h
    unfold StateMachine.force_end_segment
    rw [if_pos h]
  · intro h
    unfold StateMachine.force_end_segment
    rw [if_neg (not_le.mpr h)]

theorem force_end_segment_spec_witness :
    ((0 : ℚ) ≤ smW.segment_start ∧ smW.force_end_segment 0 = (none, smW, [])) ∧
    (smW.segment_start < (1 : ℚ) / 2 ∧
      ((smW.force_end_segment (1 / 2)).2.1).committed = smW.committed) := by
  have h := force_end_segment_spec smW 0
  have h2 := force_end_segment_spec smW (1 / 2)
  refine ⟨⟨by norm_num [smW], h.1 (by norm_num [smW])⟩, by norm_num [smW], ?_⟩
  rw [h2.2 (by norm_num [smW])]

/-- C5: predict on an unfitted mapper fails with the not-fitted error, and on
any mapper produced by fit it succeeds with both components clamped to the
unit interval. -/
theorem gazeMapper_predict_spec
    (m m0 : GazeMapper) (algo : FitAlgo) (feats : List (List ℚ))
    (targs : List (ℚ × ℚ)) (features : List ℚ) :
    (m.is_fitted = false →
      m.predict features = Except.error PredictError.notFitted) ∧
    (∃ x y, ((m0.fit algo feats targs).1).predict features = Except.ok (x, y) ∧
      0 ≤ x ∧ x ≤ 1 ∧ 0 ≤ y ∧ y ≤ 1) := by
  constructor
  · intro h
    unfold GazeMapper.predict
    rw [if_pos h]
  · exact ⟨_, _, rfl, clip01_nonneg _, clip01_le_one _, clip01_nonneg _,
      clip01_le_one _⟩

theorem gazeMapper_predict_spec_witness :
    (GazeMapper.init 2 1).is_fitted = false ∧
    (GazeMapper.init 2 1).predict [0] = Except.error PredictError.notFitted :=
  ⟨rfl,
    (gazeMapper_predict_spec (GazeMapper.init 2 1) (GazeMapper.init 2 1)
      constAlgo [] [] [0]).1 rfl⟩

/-- C7: the first update after construction or after reset returns its input
unchanged regardless of prior history, and an update on a filter holding
prior state blends each axis independently with coefficient alpha. -/
theorem emaFilter_update_spec (f : EMAFilter) (a x y : ℚ) :
    ((EMAFilter.init a).update x y).1 = (x, y) ∧
    ((f.reset).update x y).1 = (x, y) ∧
    (∀ px py, f.x = some px → f.y = some py →
      (f.update x y).1 =
        (f.alpha * x + (1 - f.alpha) * px, f.alpha * y + (1 - f.alpha) * py)) := by
  refine ⟨rfl, rfl, ?_⟩
  intro px py hx hy
  unfold EMAFilter.update
  rw [hx]
  simp [hy]

theorem emaFilter_update_spec_witness :
    emaW.x = some (1 / 2) ∧ emaW.y = some (1 / 2) ∧
    (emaW.update 1 0).1 = (13 / 20, 7 / 20) := by
  have h := (emaFilter_update_spec emaW (3 / 10) 1 0).2.2 (1 / 2) (1 / 2) rfl rfl
  refine ⟨rfl, rfl, ?_⟩
  rw [h]
  norm_num [emaW, Prod.ext_iff]

/-- C10: serialising a never-fitted mapper yields the empty dictionary and
raises nothing, and a fitted mapper always serialises to a non-empty
dictionary. -/
theorem gazeMapper_to_dict_spec (m : GazeMapper) (d : Nat) (a : ℚ) :
    (GazeMapper.init d a).to_dict = [] ∧
    (m.is_fitted = false → m.to_dict = []) ∧
    (m.is_fitted = true → m.to_dict ≠ []) := by
  refine ⟨rfl, ?_, ?_⟩
  · intro h
    unfold GazeMapper.to_dict
    rw [if_pos h]
  · intro h
    unfold GazeMapper.to_dict
    rw [if_neg (by simp [h])]
    simp

theorem gazeMapper_to_dict_spec_witness :
    (((GazeMapper.init 2 1).fit constAlgo [] []).1).is_fitted = true ∧
    (GazeMapper.init 2 1).to_dict = [] ∧
    (((GazeMapper.init 2 1).fit constAlgo [] []).1).to_dict ≠ [] := by
  have h := gazeMapper_to_dict_spec (((GazeMapper.init 2 1).fit constAlgo [] []).1) 2 1
  exact ⟨rfl, h.1, h.2.2 rfl⟩

/-- When no call of the input sequence finds its candidate pending for
stable_ms or more, running the sequence changes neither the committed state
nor the recorded events. -/
theorem runUpdates_neverStable (inputs : List (GazeState × ℚ)) :
    ∀ sm : StateMachine, sm.neverStable inputs = true →
      (sm.runUpdates inputs).committed = sm.committed ∧
      (sm.runUpdates inputs).events = sm.events := by
  induction inputs with
  | nil => exact fun sm _ => ⟨rfl, rfl⟩
  | cons p rest ih =>
    rintro sm h
    obtain ⟨c, t⟩ := p
    simp only [StateMachine.neverStable, Bool.and_eq_true, Bool.or_eq_true] at h
    obtain ⟨h1, h2⟩ := h
    have hstep : ((sm.update c t).2.1).committed = sm.committed ∧
        ((sm.update c t).2.1).events = sm.events := by
      unfold StateMachine.update
      by_cases hc : c = sm.committed
      · rw [if_pos hc]
        exact ⟨rfl, rfl⟩
      · rw [if_neg hc]
        by_cases hp : sm.pending ≠ some c
        · rw [if_pos hp]
          exact ⟨rfl, rfl⟩
        · rw [if_neg hp]
          have hlt : (t - sm.pending_since.getD 0) * 1000 < sm.stable_ms := by
            rcases h1 with h1 | h1
            · exact absurd (of_decide_eq_true h1) hp
            · exact of_decide_eq_true h1
          rw [if_neg (not_le.mpr hlt)]
          exact ⟨rfl, rfl⟩
    have hnext := ih ((sm.update c t).2.1) h2
    simp only [StateMachine.runUpdates]
    exact ⟨hnext.1.trans hstep.1, hnext.2.trans hstep.2⟩

/-- C3: after a reset, a run of candidates alternating between two states
that differ from the initial UNKNOWN committed state, in which no candidate
value ever persists as the pending candidate for stable_ms or more between
consecutive calls carrying it, leaves the committed state at UNKNOWN and
emits no transition event, however often each value recurs. -/
theorem flicker_alternation_never_commits
    (sm0 : StateMachine) (t0 : ℚ) (a b : GazeState)
    (inputs : List (GazeState × ℚ))
    (ha : a ≠ GazeState.UNKNOWN) (hb : b ≠ GazeState.UNKNOWN)
    (hcand : ∀ p ∈ inputs, p.1 = a ∨ p.1 = b)
    (hns : (sm0.reset t0).neverStable inputs = true) :
    ((sm0.reset t0).runUpdates inputs).committed = GazeState.UNKNOWN ∧
    ((sm0.reset t0).runUpdates inputs).events = [] := by
  have h := runUpdates_neverStable inputs (sm0.reset t0) hns
  exact ⟨h.1, h.2⟩

theorem flicker_alternation_never_commits_witness :
    ((StateMachine.init 200).reset 0).neverStable flickerInputs = true ∧
    (((StateMachine.init 200).reset 0).runUpdates flickerInputs).committed
      = GazeState.UNKNOWN := by
  have e1 : ((StateMachine.init 200).reset 0).update GazeState.IN_COCKPIT (1 / 20)
      = (GazeState.UNKNOWN, flickM1, []) := by
    simp [StateMachine.update, StateMachine.init, StateMachine.reset, flickM1]
  have e2 : flickM1.update GazeState.OUT_OF_COCKPIT (1 / 10)
      = (GazeState.UNKNOWN, flickM2, []) := by
    simp [StateMachine.update, flickM1, flickM2]
  have e3 : flickM2.update GazeState.IN_COCKPIT (3 / 20)
      = (GazeState.UNKNOWN, flickM3, []) := by
    simp [StateMachine.update, flickM1, flickM2, flickM3]
  have hns : ((StateMachine.init 200).reset 0).neverStable flickerInputs = true := by
    simp only [flickerInputs, StateMachine.neverStable, e1, e2, e3]
    simp [StateMachine.init, StateMachine.reset, flickM1, flickM2]
  refine ⟨hns, ?_⟩
  exact (flicker_alternation_never_commits (StateMachine.init 200) 0
    GazeState.IN_COCKPIT GazeState.OUT_OF_COCKPIT flickerInputs
    (by decide) (by decide) (by decide) hns).1

/-- The foldl accumulating per-state seconds equals the accumulator plus the
filtered duration sum of the specification. -/
theorem stateDuration_foldl_aux (s : GazeState) :
    ∀ (events : List StateEvent) (acc : ℚ),
      events.foldl
        (fun acc ev =>
          if ev.from_state = s then acc + ev.duration_ms / 1000 else acc) acc
      = acc + specStateTime events s
  | [], acc => by simp [specStateTime]
  | ev :: rest, acc => by
    simp only [List.foldl_cons]
    by_cases h : ev.from_state = s
    · rw [if_pos h, stateDuration_foldl_aux s rest]
      simp [specStateTime, List.filter_cons, h, StateEvent.duration_ms]
      ring
    · rw [if_neg h, stateDuration_foldl_aux s rest]
      simp [specStateTime, List.filter_cons, h]

/-- The per-state accumulation of compute_debrief equals the grouped sum of
event durations of the specification. -/
theorem stateDuration_eq_specStateTime (events : List StateEvent) (s : GazeState) :
    stateDuration events s = specStateTime events s := by
  unfold stateDuration
  rw [stateDuration_foldl_aux]
  ring

/-- C8: every per-state time of the debrief is the rounded sum of event
durations grouped by from_state, every percentage is that time over the total
duration (denominator 1 when the duration is not positive) scaled to percent
and rounded, and the debrief of an empty session is all zeroes with empty
lists. -/
theorem compute_debrief_times_and_percentages
    (samples : List GazeSample) (events : List StateEvent) (dur : ℚ) :
    ((compute_debrief samples events dur).in_cockpit_s
        = pyRound 3 (specStateTime events GazeState.IN_COCKPIT) ∧
      (compute_debrief samples events dur).out_cockpit_s
        = pyRound 3 (specStateTime events GazeState.OUT_OF_COCKPIT) ∧
      (compute_debrief samples events dur).unknown_s
        = pyRound 3 (specStateTime events GazeState.UNKNOWN)) ∧
    ((compute_debrief samples events dur).in_cockpit_pct
        = pyRound 1 (specStateTime events GazeState.IN_COCKPIT
            / (if 0 < dur then dur else 1) * 100) ∧
      (compute_debrief samples events dur).out_cockpit_pct
        = pyRound 1 (specStateTime events GazeState.OUT_OF_COCKPIT
            / (if 0 < dur then dur else 1) * 100) ∧
      (compute_debrief samples events dur).unknown_pct
        = pyRound 1 (specStateTime events GazeState.UNKNOWN
            / (if 0 < dur then dur else 1) * 100)) ∧
    ((compute_debrief [] [] 0).total_duration_s = 0 ∧
      (compute_debrief [] [] 0).n_out_glances = 0 ∧
      (compute_debrief [] [] 0).out_durations_ms = [] ∧
      (compute_debrief [] [] 0).in_cockpit_pct = 0 ∧
      (compute_debrief [] [] 0).out_cockpit_pct = 0 ∧
      (compute_debrief [] [] 0).unknown_pct = 0) := by
  refine ⟨⟨?_, ?_, ?_⟩, ⟨?_, ?_, ?_⟩, ?_, ?_, ?_, ?_, ?_, ?_⟩
  · simp [compute_debrief, stateDuration_eq_specStateTime]
  · simp [compute_debrief, stateDuration_eq_specStateTime]
  · simp [compute_debrief, stateDuration_eq_specStateTime]
  · simp [compute_debrief, stateDuration_eq_specStateTime]
  · simp [compute_debrief, stateDuration_eq_specStateTime]
  · simp [compute_debrief, stateDuration_eq_specStateTime]
  · norm_num [compute_debrief, pyRound, roundHalfEven]
  · norm_num [compute_debrief]
  · norm_num [compute_debrief]
  · norm_num [compute_debrief, stateDuration, pyRound, roundHalfEven]
  · norm_num [compute_debrief, stateDuration, pyRound, roundHalfEven]
  · norm_num [compute_debrief, stateDuration, pyRound, roundHalfEven]

/-- C9: the out-of-cockpit glance count of the debrief counts the events
entering the out state, the out duration list is exactly the rounded
durations of the events leaving it, and average, median and maximum are taken
over that list, all three zero when it is empty. -/
theorem compute_debrief_out_glances
    (samples : List GazeSample) (events : List StateEvent) (dur : ℚ) :
    (compute_debrief samples events dur).n_out_glances
      = (events.filter fun ev => ev.to_state = GazeState.OUT_OF_COCKPIT).length ∧
    (compute_debrief samples events dur).out_durations_ms
      = ((events.filter fun ev => ev.from_state = GazeState.OUT_OF_COCKPIT).map
          StateEvent.duration_ms).map (pyRound 1) ∧
    (((events.filter fun ev => ev.from_state = GazeState.OUT_OF_COCKPIT).map
        StateEvent.duration_ms) = [] →
      (compute_debrief samples events dur).avg_out_ms = 0 ∧
      (compute_debrief samples events dur).median_out_ms = 0 ∧
      (compute_debrief samples events dur).max_out_ms = 0) ∧
    (((events.filter fun ev => ev.from_state = GazeState.OUT_OF_COCKPIT).map
        StateEvent.duration_ms) ≠ [] →
      (compute_debrief samples events dur).avg_out_ms
        = pyRound 1 (pyMean ((events.filter fun ev =>
            ev.from_state = GazeState.OUT_OF_COCKPIT).map StateEvent.duration_ms)) ∧
      (compute_debrief samples events dur).median_out_ms
        = pyRound 1 (pyMedian ((events.filter fun ev =>
            ev.from_state = GazeState.OUT_OF_COCKPIT).map StateEvent.duration_ms)) ∧
      (compute_debrief samples events dur).max_out_ms
        = pyRound 1 (pyMax ((events.filter fun ev =>
            ev.from_state = GazeState.OUT_OF_COCKPIT).map StateEvent.duration_ms))) := by
  refine ⟨rfl, rfl, fun h => ?_, fun h => ?_⟩
  · refine ⟨?_, ?_, ?_⟩
    all_goals
      simp only [compute_debrief]
      rw [if_pos h]
  · refine ⟨?_, ?_, ?_⟩
    all_goals
      simp only [compute_debrief]
      rw [if_neg h]

theorem compute_debrief_out_glances_witness :
    (((outEvs.filter fun ev => ev.from_state = GazeState.OUT_OF_COCKPIT).map
        StateEvent.duration_ms) ≠ [] ∧
      (compute_debrief [] outEvs 10).avg_out_ms
        = pyRound 1 (pyMean ((outEvs.filter fun ev =>
            ev.from_state = GazeState.OUT_OF_COCKPIT).map StateEvent.duration_ms))) ∧
    ((([] : List StateEvent).filter fun ev =>
        ev.from_state = GazeState.OUT_OF_COCKPIT).map StateEvent.duration_ms = [] ∧
      (compute_debrief [] [] 10).avg_out_ms = 0) := by
  have hne : ((outEvs.filter fun ev =>
      ev.from_state = GazeState.OUT_OF_COCKPIT).map StateEvent.duration_ms) ≠ [] := by
    simp [outEvs]
  exact ⟨⟨hne, ((compute_debrief_out_glances [] outEvs 10).2.2.2 hne).1⟩,
    ⟨rfl, ((compute_debrief_out_glances [] [] 10).2.2.1 rfl).1⟩⟩

/-- Two points with equal coordinates are equal. -/
theorem ptExt {p q : Pt} (hx : p.x = q.x) (hy : p.y = q.y) : p = q := by
  cases p
  cases q
  simp_all

/-- The edge iteration of pointPolygonTest always detects a query point that
equals the second endpoint of the edge. -/
theorem edgeCross_snd_self (pt v0 : Pt) : edgeCross pt v0 pt = none := by
  unfold edgeCross
  by_cases hA : (v0.y ≤ pt.y ∧ pt.y ≤ pt.y) ∨ (pt.y < v0.y ∧ pt.y < pt.y) ∨
      (v0.x < pt.x ∧ pt.x < pt.x)
  · rw [if_pos hA, if_pos ⟨rfl, Or.inl rfl⟩]
  · rw [if_neg hA, if_pos (by ring)]

/-- A query point on the closed segment of an edge is either detected by that
edge iteration, or equals the first endpoint of the edge. -/
theorem edgeCross_onSeg (pt v0 v : Pt) (h : OnSeg pt v0 v) :
    edgeCross pt v0 v = none ∨ pt = v0 := by
  unfold OnSeg at h
  obtain ⟨hcol, hx1, hx2, hy1, hy2⟩ := h
  unfold edgeCross
  by_cases hA : (v0.y ≤ pt.y ∧ v.y ≤ pt.y) ∨ (pt.y < v0.y ∧ pt.y < v.y) ∨
      (v0.x < pt.x ∧ v.x < pt.x)
  · rw [if_pos hA]
    rcases hA with ⟨h1, h2⟩ | ⟨h1, h2⟩ | ⟨h1, h2⟩
    · by_cases hpv : pt.y = v.y
      · left
        have hB : pt.y = v.y ∧ (pt.x = v.x ∨ (pt.y = v0.y ∧
            ((v0.x ≤ pt.x ∧ pt.x ≤ v.x) ∨ (v.x ≤ pt.x ∧ pt.x ≤ v0.x)))) := by
          refine ⟨hpv, ?_⟩
          by_cases hpv0 : pt.y = v0.y
          · refine Or.inr ⟨hpv0, ?_⟩
            rcases le_total v0.x v.x with hle | hle
            · exact Or.inl ⟨(min_eq_left hle) ▸ hx1, (max_eq_right hle) ▸ hx2⟩
            · exact Or.inr ⟨(min_eq_right hle) ▸ hx1, (max_eq_left hle) ▸ hx2⟩
          · refine Or.inl ?_
            have hvy : v.y - v0.y ≠ 0 :=
              fun hz => hpv0 (hpv.trans (sub_eq_zero.mp hz))
            have h3 : (v.x - v0.x) * (v.y - v0.y)
                = (pt.x - v0.x) * (v.y - v0.y) := by
              calc (v.x - v0.x) * (v.y - v0.y)
                  = (pt.y - v0.y) * (v.x - v0.x) := by rw [hpv]; ring
                _ = (pt.x - v0.x) * (v.y - v0.y) := hcol
            have h4 := mul_right_cancel₀ hvy h3
            linarith
        rw [if_pos hB]
      · right
        have hy0 : pt.y = v0.y := by
          rcases le_max_iff.mp hy2 with hv0 | hv
          · exact le_antisymm hv0 h1
          · exact absurd (le_antisymm hv h2) hpv
        have hvy : v.y - v0.y ≠ 0 :=
          fun hz => hpv (hy0.trans (sub_eq_zero.mp hz).symm)
        have hx0 : pt.x = v0.x := by
          have h0 : pt.y - v0.y = 0 := sub_eq_zero_of_eq hy0
          rw [h0, zero_mul] at hcol
          rcases mul_eq_zero.mp hcol.symm with hx | hy
          · exact sub_eq_zero.mp hx
          · exact absurd hy hvy
        exact ptExt hx0 hy0
    · exact absurd hy1 (not_le.mpr (lt_min h1 h2))
    · exact absurd hx2 (not_le.mpr (max_lt h1 h2))
  · rw [if_neg hA, if_pos (sub_eq_zero_of_eq hcol)]
    exact Or.inl rfl

/-- If some edge of the list detects the query point, the whole iteration
returns the on-edge marker. -/
theorem runEdges_eq_none (pt : Pt) :
    ∀ (edges : List (Pt × Pt)) (e : Pt × Pt), e ∈ edges →
      edgeCross pt e.1 e.2 = none → runEdges pt edges = none
  | [], e, he, _ => absurd he (List.not_mem_nil e)
  | e0 :: rest, e, he, hn => by
    unfold runEdges
    rcases List.mem_cons.mp he with heq | hmem
    · rw [← heq, hn]
    · cases hc : edgeCross pt e0.1 e0.2 with
      | none => rfl
      | some b =>
        rw [runEdges_eq_none pt rest e hmem hn]
        rfl

/-- Every vertex of the path occurs as the second endpoint of some edge. -/
theorem pathEdges_snd_mem (q : Pt) :
    ∀ (prev : Pt) (ps : List Pt), q ∈ ps → ∃ u, (u, q) ∈ pathEdges prev ps
  | prev, [], hq => absurd hq (List.not_mem_nil q)
  | prev, p :: rest, hq => by
    simp only [pathEdges]
    rcases List.mem_cons.mp hq with h | h
    · exact ⟨prev, by rw [h]; exact List.mem_cons_self _ _⟩
    · obtain ⟨u, hu⟩ := pathEdges_snd_mem q p rest h
      exact ⟨u, List.mem_cons_of_mem _ hu⟩

/-- The first endpoint of any path edge is the start point or a vertex. -/
theorem pathEdges_fst_mem (e : Pt × Pt) :
    ∀ (prev : Pt) (ps : List Pt), e ∈ pathEdges prev ps → e.1 = prev ∨ e.1 ∈ ps
  | prev, [], he => absurd he (List.not_mem_nil e)
  | prev, p :: rest, he => by
    simp only [pathEdges] at he
    rcases List.mem_cons.mp he with h | h
    · left
      rw [h]
    · rcases pathEdges_fst_mem e p rest h with h2 | h2
      · right
        rw [h2]
        exact List.mem_cons_self _ _
      · right
        exact List.mem_cons_of_mem _ h2

/-- In the closed edge cycle, the first endpoint of every edge also occurs as
the second endpoint of some edge. -/
theorem cycEdges_pred (ps : List Pt) (e : Pt × Pt) (he : e ∈ cycEdges ps) :
    ∃ u, (u, e.1) ∈ cycEdges ps := by
  unfold cycEdges at he ⊢
  cases hlast : ps.getLast? with
  | none =>
    rw [hlast] at he
    exact absurd he (List.not_mem_nil e)
  | some l =>
    rw [hlast] at he
    have hmem : e.1 ∈ ps := by
      rcases pathEdges_fst_mem e l ps he with h | h
      · rw [h]
        exact List.mem_of_mem_getLast? (by rw [hlast]; rfl)
      · exact h
    exact pathEdges_snd_mem e.1 l ps hmem

/-- A query point on the boundary of the polygon makes pointPolygonTest
return zero. -/
theorem pointPolygonTest_onBoundary (ps : List Pt) (pt : Pt)
    (h : OnBoundary pt ps) : pointPolygonTest ps pt = 0 := by
  unfold OnBoundary at h
  obtain ⟨e, he, hseg⟩ := h
  have hnone : runEdges pt (cycEdges ps) = none := by
    rcases edgeCross_onSeg pt e.1 e.2 hseg with hn | hv0
    · exact runEdges_eq_none pt (cycEdges ps) e he hn
    · obtain ⟨u, hu⟩ := cycEdges_pred ps e he
      refine runEdges_eq_none pt (cycEdges ps) (u, e.1) hu ?_
      rw [← hv0]
      exact edgeCross_snd_self pt u
  unfold pointPolygonTest
  rw [hnone]

/-- C6: the hit test returns false for every point against any polygon with
fewer than 3 vertices, and classifies every point lying exactly on the
boundary of a polygon with at least 3 vertices as inside. -/
theorem point_in_polygon_spec (px py : ℚ) (polygon : List (ℚ × ℚ)) :
    (polygon.length < 3 → point_in_polygon px py polygon = false) ∧
    (3 ≤ polygon.length →
      OnBoundary (Pt.mk px py) (polygon.map fun p => Pt.mk p.1 p.2) →
      point_in_polygon px py polygon = true) := by
  constructor
  · intro h
    unfold point_in_polygon
    rw [if_pos h]
  · intro h3 hb
    unfold point_in_polygon
    rw [if_neg (not_lt.mpr h3), pointPolygonTest_onBoundary _ _ hb]
    rfl

theorem point_in_polygon_spec_witness :
    (([((0 : ℚ), (0 : ℚ))] : List (ℚ × ℚ)).length < 3 ∧
      point_in_polygon (1 / 2) (1 / 2) [((0 : ℚ), (0 : ℚ))] = false) ∧
    (3 ≤ sqPoly.length ∧
      OnBoundary (Pt.mk (1 / 10) (1 / 2)) (sqPoly.map fun p => Pt.mk p.1 p.2) ∧
      point_in_polygon (1 / 10) (1 / 2) sqPoly = true) := by
  have hb : OnBoundary (Pt.mk (1 / 10) (1 / 2))
      (sqPoly.map fun p => Pt.mk p.1 p.2) := by
    unfold OnBoundary
    refine ⟨(Pt.mk (1 / 10) (9 / 10), Pt.mk (1 / 10) (1 / 10)), ?_, ?_⟩
    · exact List.Mem.head _
    · unfold OnSeg
      norm_num [min_def, max_def]
  refine ⟨⟨by norm_num, (point_in_polygon_spec (1 / 2) (1 / 2)
    [((0 : ℚ), (0 : ℚ))]).1 (by norm_num)⟩, by norm_num [sqPoly], hb,
    (point_in_polygon_spec (1 / 10) (1 / 2) sqPoly).2 (by norm_num [sqPoly]) hb⟩

end EyeTracking
